import Mathlib

/-!
Shallow embedding of the wallhalla pagination cursor
(`src/wallhalla/wallhalla.py`): the `WHClient` page-fetching client and the
`Wallhalla` cursor (`set_next`, `__refetch`, `__fetch`, and the three
condition checks).  Counters and sizes are embedded as `Int`, matching
Python integer arithmetic (in particular `collection_size - 1` may be
negative).  Python exceptions are embedded as `Except`/`Option` results;
since the Python object keeps any mutations made before a raising call, the
stateful operations return the (possibly mutated) state alongside the error.
Network traffic is embedded as an explicit trace of `Request` values.
-/

/-- One collection item as used by the cursor: the `id` and `path` fields of
a wallpaper JSON object. -/
structure Item where
  id : String
  path : String
deriving DecidableEq, Repr

/-- The `meta` object of a page response: `per_page` and `total`. -/
structure Meta where
  per_page : Int
  total : Int
deriving DecidableEq, Repr

/-- One page response: the `data` list and the `meta` object. -/
structure Page where
  data : List Item
  meta : Meta
deriving DecidableEq, Repr

/-- One remote collection as returned by the `/collections` endpoint. -/
structure Collection where
  label : String
  id : String
deriving DecidableEq, Repr

/-- Errors of the embedded client and cursor, following the taxonomy of the
design document: `transport` embeds the `RuntimeError` raised by
`WHClient.__get_json` on a non-ok response (carrying the body text);
`notFound` embeds the failure when no collection label matches (in the
source, subscripting the `None` collection); `exhaustedPage` embeds the
failure when the selection scan finds no item (in the source, subscripting
the `None` wallpaper). -/
inductive WallError where
  | transport (body : String)
  | notFound
  | exhaustedPage
deriving DecidableEq, Repr

deriving instance DecidableEq for Except

/-- A network request issued by the client: the `/collections` listing, or a
page request for `/collections/{login}/{collectionId}` with a `page`
parameter. -/
inductive Request where
  | collectionsList
  | pageRequest (login : String) (collectionId : String) (page : Int)
deriving DecidableEq, Repr

/-- The configuration fields the cursor and client read: the collection
label, the account login, and the fetch-staleness interval
(`cache.fetch.sec`). -/
structure WHConfig where
  collection : String
  login : String
  fetch_freq : Int
deriving DecidableEq, Repr

/-- The remote endpoint behavior: what the `/collections` listing returns,
and what a page request returns, each either a payload or the body text of a
non-ok response. -/
structure Remote where
  collectionsResp : Except String (List Collection)
  pageResp : String → Int → Except String Page

namespace WHClient

/-- Embedding of `WHClient.collections`: one `/collections` request; a
non-ok response becomes a `transport` error. -/
def collections (r : Remote) : List Request × Except WallError (List Collection) :=
  ([Request.collectionsList],
    match r.collectionsResp with
    | Except.ok d => Except.ok d
    | Except.error t => Except.error (WallError.transport t))

/-- Embedding of `WHClient.wallpapers`: request the collections listing,
resolve the configured collection label with
`next(filter(lambda c: c[label] == collection, collections), None)`, then
request the resolved collection page.  An unresolved label fails (the source
subscripts `None`) before any page request is issued. -/
def wallpapers (cfg : WHConfig) (r : Remote) (page : Int) :
    List Request × Except WallError Page :=
  match (collections r).2 with
  | Except.error e => ((collections r).1, Except.error e)
  | Except.ok cs =>
    match cs.find? (fun c => c.label == cfg.collection) with
    | none => ((collections r).1, Except.error WallError.notFound)
    | some c =>
      ((collections r).1 ++ [Request.pageRequest cfg.login c.id page],
        match r.pageResp c.id page with
        | Except.ok p => Except.ok p
        | Except.error t => Except.error (WallError.transport t))

end WHClient

/-- The mutable cursor state of the `Wallhalla` object: the loaded items,
the fetch timestamp, the last-served identifier, the pagination totals and
the three position counters. -/
structure CursorState where
  wallpapers : List Item
  last_fetched_at : Int
  current_wallpaper_id : String
  collection_size : Int
  page_size : Int
  page_index : Int
  page_entry_index : Int
  wallpaper_index : Int
deriving DecidableEq, Repr

/-- The state set up by `Wallhalla.__init__`: empty items, zero counters and
sizes, sentinel identifier `"0"`. -/
def initState : CursorState :=
  { wallpapers := []
    last_fetched_at := 0
    current_wallpaper_id := "0"
    collection_size := 0
    page_size := 0
    page_index := 0
    page_entry_index := 0
    wallpaper_index := 0 }

/-- Lexicographic comparison of character lists, as Python compares strings:
a shorter proper prefix is smaller, otherwise the first differing character
decides. -/
def charListLt : List Char → List Char → Bool
  | _, [] => false
  | [], _ :: _ => true
  | a :: as, b :: bs => if a < b then true else if b < a then false else charListLt as bs

/-- Python string comparison `a < b`: lexicographic on the code points. -/
def strLt (a b : String) : Bool :=
  charListLt a.data b.data

/-- Python string comparison `a <= b`. -/
def strLe (a b : String) : Bool :=
  !(strLt b a)

namespace Wallhalla

/-- Embedding of the Python `sorted(-, key=lambda x: x[id])`: a stable sort
ascending by the string identifier.  Python `sorted` is stable, and a stable
sort with respect to a total preorder is extensionally unique, so stable
insertion sort is the same function. -/
def sortById (l : List Item) : List Item :=
  List.insertionSort (fun a b => strLe a.id b.id = true) l

/-- Embedding of `Wallhalla.__is_eoc_reached`:
`wallpaper_index > collection_size - 1` over Python integers. -/
def is_eoc_reached (s : CursorState) : Bool :=
  decide (s.wallpaper_index > s.collection_size - 1)

/-- Embedding of `Wallhalla.__is_eop_reached`:
`page_entry_index >= page_size`. -/
def is_eop_reached (s : CursorState) : Bool :=
  decide (s.page_entry_index ≥ s.page_size)

/-- Embedding of `Wallhalla.__is_fetch_cache_expired`:
`time.time() - last_fetched_at > fetch_freq`, with the current time passed
explicitly. -/
def is_fetch_cache_expired (cfg : WHConfig) (now : Int) (s : CursorState) : Bool :=
  decide (now - s.last_fetched_at > cfg.fetch_freq)

/-- Embedding of `Wallhalla.__fetch`: request the page at the current
`page_index`; on success store the items sorted by identifier, the
pagination totals and the fetch timestamp; on failure the state is
unchanged (the source raises before any assignment) and the error is
reported. -/
def fetch (cfg : WHConfig) (r : Remote) (now : Int) (s : CursorState) :
    CursorState × List Request × Option WallError :=
  match (WHClient.wallpapers cfg r s.page_index).2 with
  | Except.error e => (s, (WHClient.wallpapers cfg r s.page_index).1, some e)
  | Except.ok p =>
      ({ s with
          wallpapers := sortById p.data
          page_size := p.meta.per_page
          collection_size := p.meta.total
          last_fetched_at := now }, (WHClient.wallpapers cfg r s.page_index).1, none)

/-- Embedding of `Wallhalla.__refetch`: the three prioritized conditions.
The end-of-collection and end-of-page branches mutate the counters, the
page index and the current identifier before calling `fetch`, exactly as
the source does, so those mutations persist even when the fetch fails. -/
def refetch (cfg : WHConfig) (r : Remote) (now : Int) (s : CursorState) :
    CursorState × List Request × Option WallError :=
  if is_eoc_reached s then
    fetch cfg r now
      { s with
          page_entry_index := 0
          page_index := 1
          current_wallpaper_id := "0"
          wallpaper_index := 0 }
  else if is_eop_reached s then
    fetch cfg r now
      { s with
          page_index := s.page_index + 1
          page_entry_index := 0
          current_wallpaper_id := "0" }
  else if is_fetch_cache_expired cfg now s then
    fetch cfg r now s
  else (s, [], none)

/-- Embedding of `Wallhalla.set_next`: refetch if needed, then select the
first loaded item whose identifier is strictly greater than the current one
(`filter(lambda w: w[id] > current_wallpaper_id, wallpapers)` over the
sorted list), commit the identifier and increment both counters.  A fetch
failure propagates unchanged; an empty selection fails with
`exhaustedPage` (the source subscripts `None`). -/
def set_next (cfg : WHConfig) (r : Remote) (now : Int) (s : CursorState) :
    CursorState × List Request × Except WallError Item :=
  match (refetch cfg r now s).2.2 with
  | some e => ((refetch cfg r now s).1, (refetch cfg r now s).2.1, Except.error e)
  | none =>
    match (refetch cfg r now s).1.wallpapers.find?
        (fun w => strLt (refetch cfg r now s).1.current_wallpaper_id w.id) with
    | none =>
        ((refetch cfg r now s).1, (refetch cfg r now s).2.1,
          Except.error WallError.exhaustedPage)
    | some w =>
      ({ (refetch cfg r now s).1 with
          current_wallpaper_id := w.id
          page_entry_index := (refetch cfg r now s).1.page_entry_index + 1
          wallpaper_index := (refetch cfg r now s).1.wallpaper_index + 1 },
        (refetch cfg r now s).2.1, Except.ok w)

/-- State after `n` successive `set_next` calls (all at the same clock
reading), starting from `s`. -/
def iterState (cfg : WHConfig) (r : Remote) (now : Int) : Nat → CursorState → CursorState
  | 0, s => s
  | n + 1, s => iterState cfg r now n (set_next cfg r now s).1

/-- Result of the call number `n + 1` in a run of successive `set_next`
calls from `s`. -/
def iterResult (cfg : WHConfig) (r : Remote) (now : Int) (n : Nat) (s : CursorState) :
    Except WallError Item :=
  (set_next cfg r now (iterState cfg r now n s)).2.2

end Wallhalla

open Wallhalla

/-- Configuration used by the concrete scenarios: collection label
`"walls"`, login `"alice"`, staleness interval 100. -/
def cfgA : WHConfig :=
  { collection := "walls", login := "alice", fetch_freq := 100 }

/-- Remote for Scenario A: one collection `"walls"` with identifier `"c1"`;
page 1 holds items `"1"` and `"2"`, page 2 holds item `"3"`, with
`per_page = 2` and `total = 3`. -/
def remoteA : Remote :=
  { collectionsResp := Except.ok [{ label := "walls", id := "c1" }]
    pageResp := fun _ p =>
      if p = 1 then
        Except.ok { data := [⟨"1", "u1"⟩, ⟨"2", "u2"⟩], meta := { per_page := 2, total := 3 } }
      else if p = 2 then
        Except.ok { data := [⟨"3", "u3"⟩], meta := { per_page := 2, total := 3 } }
      else Except.error "404" }

/-- Remote with a single-item collection: page 1 holds item `"1"` with
`per_page = 1` and `total = 1`. -/
def remoteB : Remote :=
  { collectionsResp := Except.ok [{ label := "walls", id := "c1" }]
    pageResp := fun _ p =>
      if p = 1 then
        Except.ok { data := [⟨"1", "u1"⟩], meta := { per_page := 1, total := 1 } }
      else Except.error "404" }

/-- Remote whose page requests all fail with body `"boom"`. -/
def remoteC : Remote :=
  { collectionsResp := Except.ok [{ label := "walls", id := "c1" }]
    pageResp := fun _ _ => Except.error "boom" }

/-- A cursor state about to take the end-of-page branch: two entries served
from a page of size two, with three items in the collection. -/
def sC : CursorState :=
  { wallpapers := [⟨"1", "u1"⟩, ⟨"2", "u2"⟩]
    last_fetched_at := 0
    current_wallpaper_id := "2"
    collection_size := 3
    page_size := 2
    page_index := 1
    page_entry_index := 2
    wallpaper_index := 2 }

/-- Remote serving an empty collection: page 1 is empty with zero totals. -/
def remoteE : Remote :=
  { collectionsResp := Except.ok [{ label := "walls", id := "c1" }]
    pageResp := fun _ p =>
      if p = 1 then
        Except.ok { data := [], meta := { per_page := 0, total := 0 } }
      else Except.error "404" }

/-- Remote whose page 1 shrank to the single item `"9"` with
`per_page = 1` and `total = 1`. -/
def remoteS : Remote :=
  { collectionsResp := Except.ok [{ label := "walls", id := "c1" }]
    pageResp := fun _ p =>
      if p = 1 then
        Except.ok { data := [⟨"9", "u9"⟩], meta := { per_page := 1, total := 1 } }
      else Except.error "404" }

/-- A cursor state that has served one item of a loaded two-item page. -/
def sS : CursorState :=
  { wallpapers := [⟨"1", "u1"⟩, ⟨"2", "u2"⟩]
    last_fetched_at := 0
    current_wallpaper_id := "1"
    collection_size := 3
    page_size := 2
    page_index := 1
    page_entry_index := 1
    wallpaper_index := 1 }

/-- Configuration whose collection label matches no remote collection. -/
def cfgMissing : WHConfig :=
  { collection := "missing", login := "alice", fetch_freq := 100 }

/-- Recognizer for page requests in a trace. -/
def isPageRequest : Request → Bool
  | Request.pageRequest _ _ _ => true
  | Request.collectionsList => false

/-- A run of `n` successive `set_next` calls in which every call succeeds
and no call starts in the end-of-collection condition. -/
def okNonEocRun (cfg : WHConfig) (r : Remote) (now : Int) : Nat → CursorState → Bool
  | 0, _ => true
  | n + 1, s =>
      !(is_eoc_reached s)
      && ((set_next cfg r now s).2.2.toOption.isSome
      && okNonEocRun cfg r now n (set_next cfg r now s).1)

/-- C1: with page size 2, total 3, page 1 holding ids "1" and "2" and page 2
holding id "3", the first three `set_next` calls from the initial state
yield ids "1", "2", "3" in that order, the third call fetching page 2, and
the fourth call wraps back to page 1 and yields "1" again. -/
theorem c1_scenario_trace :
    (iterResult cfgA remoteA 0 0 initState).toOption.map Item.id = some "1"
    ∧ (iterResult cfgA remoteA 0 1 initState).toOption.map Item.id = some "2"
    ∧ (iterResult cfgA remoteA 0 2 initState).toOption.map Item.id = some "3"
    ∧ (set_next cfgA remoteA 0 (iterState cfgA remoteA 0 2 initState)).2.1
        = [Request.collectionsList, Request.pageRequest "alice" "c1" 2]
    ∧ (iterResult cfgA remoteA 0 3 initState).toOption.map Item.id = some "1"
    ∧ (set_next cfgA remoteA 0 (iterState cfgA remoteA 0 3 initState)).2.1
        = [Request.collectionsList, Request.pageRequest "alice" "c1" 1]
    ∧ (iterState cfgA remoteA 0 4 initState).page_index = 1 := by
  exact ⟨by decide, by decide, by decide, by decide, by decide, by decide, by decide⟩

/-- The collections call issues exactly the listing request. -/
theorem collections_fst (r : Remote) :
    (WHClient.collections r).1 = [Request.collectionsList] := rfl

/-- The trace of a page fetch starts with the collections listing request. -/
theorem wallpapers_fst_head (cfg : WHConfig) (r : Remote) (page : Int) :
    (WHClient.wallpapers cfg r page).1.head? = some Request.collectionsList := by
  unfold WHClient.wallpapers
  cases h : (WHClient.collections r).2 with
  | error e => simp [WHClient.collections]
  | ok cs =>
    cases hf : cs.find? (fun c => c.label == cfg.collection) with
    | none => simp [hf, WHClient.collections]
    | some c => simp [hf, WHClient.collections]

/-- A failing fetch leaves the state it was given unchanged. -/
theorem fetch_fail_eq (cfg : WHConfig) (r : Remote) (now : Int) (t : CursorState)
    (e : WallError) (h : (WHClient.wallpapers cfg r t.page_index).2 = Except.error e) :
    fetch cfg r now t = (t, (WHClient.wallpapers cfg r t.page_index).1, some e) := by
  unfold fetch
  rw [h]

/-- A successful fetch stores the sorted items, the totals and the
timestamp, and reports no error. -/
theorem fetch_ok_eq (cfg : WHConfig) (r : Remote) (now : Int) (t : CursorState)
    (p : Page) (h : (WHClient.wallpapers cfg r t.page_index).2 = Except.ok p) :
    fetch cfg r now t =
      ({ t with
          wallpapers := sortById p.data
          page_size := p.meta.per_page
          collection_size := p.meta.total
          last_fetched_at := now }, (WHClient.wallpapers cfg r t.page_index).1, none) := by
  unfold fetch
  rw [h]

/-- A fetch never touches the position counters, the page index or the
current identifier. -/
theorem fetch_frame (cfg : WHConfig) (r : Remote) (now : Int) (t : CursorState) :
    (fetch cfg r now t).1.page_index = t.page_index
    ∧ (fetch cfg r now t).1.page_entry_index = t.page_entry_index
    ∧ (fetch cfg r now t).1.wallpaper_index = t.wallpaper_index
    ∧ (fetch cfg r now t).1.current_wallpaper_id = t.current_wallpaper_id := by
  unfold fetch
  cases h : (WHClient.wallpapers cfg r t.page_index).2 <;> simp

/-- The end-of-collection branch of `refetch`. -/
theorem refetch_eoc (cfg : WHConfig) (r : Remote) (now : Int) (s : CursorState)
    (h : is_eoc_reached s = true) :
    refetch cfg r now s =
      fetch cfg r now
        { s with
            page_entry_index := 0
            page_index := 1
            current_wallpaper_id := "0"
            wallpaper_index := 0 } := by
  unfold refetch
  rw [h]
  simp

/-- The end-of-page branch of `refetch`. -/
theorem refetch_eop (cfg : WHConfig) (r : Remote) (now : Int) (s : CursorState)
    (h1 : is_eoc_reached s = false) (h2 : is_eop_reached s = true) :
    refetch cfg r now s =
      fetch cfg r now
        { s with
            page_index := s.page_index + 1
            page_entry_index := 0
            current_wallpaper_id := "0" } := by
  unfold refetch
  rw [h1, h2]
  simp

/-- The staleness branch of `refetch`. -/
theorem refetch_stale (cfg : WHConfig) (r : Remote) (now : Int) (s : CursorState)
    (h1 : is_eoc_reached s = false) (h2 : is_eop_reached s = false)
    (h3 : is_fetch_cache_expired cfg now s = true) :
    refetch cfg r now s = fetch cfg r now s := by
  unfold refetch
  rw [h1, h2, h3]
  simp

/-- The no-fetch branch of `refetch`. -/
theorem refetch_skip (cfg : WHConfig) (r : Remote) (now : Int) (s : CursorState)
    (h1 : is_eoc_reached s = false) (h2 : is_eop_reached s = false)
    (h3 : is_fetch_cache_expired cfg now s = false) :
    refetch cfg r now s = (s, [], none) := by
  unfold refetch
  rw [h1, h2, h3]
  simp

/-- A refetch error propagates unchanged through `set_next`, together with
the state and the trace of the refetch. -/
theorem set_next_of_refetch_err (cfg : WHConfig) (r : Remote) (now : Int) (s : CursorState)
    (e : WallError) (h : (refetch cfg r now s).2.2 = some e) :
    set_next cfg r now s =
      ((refetch cfg r now s).1, (refetch cfg r now s).2.1, Except.error e) := by
  unfold set_next
  rw [h]

/-- When no fetch error occurred and the selection scan fails, `set_next`
reports the exhausted-page failure. -/
theorem set_next_of_find_none (cfg : WHConfig) (r : Remote) (now : Int) (s : CursorState)
    (h : (refetch cfg r now s).2.2 = none)
    (hf : (refetch cfg r now s).1.wallpapers.find?
        (fun w => strLt (refetch cfg r now s).1.current_wallpaper_id w.id) = none) :
    set_next cfg r now s =
      ((refetch cfg r now s).1, (refetch cfg r now s).2.1,
        Except.error WallError.exhaustedPage) := by
  unfold set_next
  rw [h, hf]

/-- When no fetch error occurred and the selection scan finds an item,
`set_next` commits it. -/
theorem set_next_of_find_some (cfg : WHConfig) (r : Remote) (now : Int) (s : CursorState)
    (w : Item) (h : (refetch cfg r now s).2.2 = none)
    (hf : (refetch cfg r now s).1.wallpapers.find?
        (fun x => strLt (refetch cfg r now s).1.current_wallpaper_id x.id) = some w) :
    set_next cfg r now s =
      ({ (refetch cfg r now s).1 with
          current_wallpaper_id := w.id
          page_entry_index := (refetch cfg r now s).1.page_entry_index + 1
          wallpaper_index := (refetch cfg r now s).1.wallpaper_index + 1 },
        (refetch cfg r now s).2.1, Except.ok w) := by
  unfold set_next
  rw [h, hf]

/-- A successful `set_next` call decomposes into a clean refetch, a
successful selection scan, and the commit of the selected item. -/
theorem set_next_ok_state (cfg : WHConfig) (r : Remote) (now : Int) (s : CursorState)
    (w : Item) (hok : (set_next cfg r now s).2.2 = Except.ok w) :
    (refetch cfg r now s).2.2 = none
    ∧ (refetch cfg r now s).1.wallpapers.find?
        (fun x => strLt (refetch cfg r now s).1.current_wallpaper_id x.id) = some w
    ∧ (set_next cfg r now s).1 =
        { (refetch cfg r now s).1 with
            current_wallpaper_id := w.id
            page_entry_index := (refetch cfg r now s).1.page_entry_index + 1
            wallpaper_index := (refetch cfg r now s).1.wallpaper_index + 1 } := by
  cases h : (refetch cfg r now s).2.2 with
  | some e =>
    rw [set_next_of_refetch_err cfg r now s e h] at hok
    exact absurd hok (by simp)
  | none =>
    cases hf : (refetch cfg r now s).1.wallpapers.find?
        (fun x => strLt (refetch cfg r now s).1.current_wallpaper_id x.id) with
    | none =>
      rw [set_next_of_find_none cfg r now s h hf] at hok
      exact absurd hok (by simp)
    | some w' =>
      rw [set_next_of_find_some cfg r now s w' h hf] at hok
      simp only [Except.ok.injEq] at hok
      subst hok
      exact ⟨rfl, rfl, by rw [set_next_of_find_some cfg r now s w' h hf]⟩

/-- Outside the end-of-collection branch, a refetch leaves the served-items
counter unchanged. -/
theorem refetch_wi_of_not_eoc (cfg : WHConfig) (r : Remote) (now : Int) (s : CursorState)
    (h1 : is_eoc_reached s = false) :
    (refetch cfg r now s).1.wallpaper_index = s.wallpaper_index := by
  cases h2 : is_eop_reached s with
  | true => rw [refetch_eop cfg r now s h1 h2]; exact (fetch_frame cfg r now _).2.2.1
  | false =>
    cases h3 : is_fetch_cache_expired cfg now s with
    | true => rw [refetch_stale cfg r now s h1 h2 h3]; exact (fetch_frame cfg r now s).2.2.1
    | false => rw [refetch_skip cfg r now s h1 h2 h3]

/-- A successful `set_next` call outside the end-of-collection branch
increments the served-items counter by exactly one. -/
theorem set_next_wi_step (cfg : WHConfig) (r : Remote) (now : Int) (s : CursorState)
    (h1 : is_eoc_reached s = false)
    (h2 : (set_next cfg r now s).2.2.toOption.isSome = true) :
    (set_next cfg r now s).1.wallpaper_index = s.wallpaper_index + 1 := by
  cases hres : (set_next cfg r now s).2.2 with
  | error e => rw [hres] at h2; simp [Except.toOption] at h2
  | ok w =>
    have hdec := set_next_ok_state cfg r now s w hres
    rw [hdec.2.2]
    have := refetch_wi_of_not_eoc cfg r now s h1
    simp [this]

/-- Over a run of successful calls that never start in the
end-of-collection condition, the served-items counter grows by the length
of the run. -/
theorem iter_wi (cfg : WHConfig) (r : Remote) (now : Int) (n : Nat) (s : CursorState)
    (h : okNonEocRun cfg r now n s = true) :
    (iterState cfg r now n s).wallpaper_index = s.wallpaper_index + n := by
  induction n generalizing s with
  | zero => simp [iterState]
  | succ n ih =>
    rw [okNonEocRun] at h
    simp only [Bool.and_eq_true, Bool.not_eq_true'] at h
    obtain ⟨h1, h2, h3⟩ := h
    have hstep := set_next_wi_step cfg r now s h1 h2
    have := ih (set_next cfg r now s).1 h3
    rw [iterState, this, hstep]
    push_cast
    ring

/-- A fetch issues exactly the requests of one `wallpapers` call for the
current page index. -/
theorem fetch_trace (cfg : WHConfig) (r : Remote) (now : Int) (t : CursorState) :
    (fetch cfg r now t).2.1 = (WHClient.wallpapers cfg r t.page_index).1 := by
  unfold fetch
  cases h : (WHClient.wallpapers cfg r t.page_index).2 <;> simp

/-- C2 counterexample: with a collection of size N = 1 and one successful
`set_next` call from the initial state, `wallpaper_index` equals 1 after
the N calls, not 0; the counter only returns to 0 inside the following
call. -/
theorem c2_counterexample :
    (iterResult cfgA remoteB 0 0 initState).toOption.isSome = true
    ∧ (iterState cfgA remoteB 0 1 initState).collection_size = 1
    ∧ (iterState cfgA remoteB 0 1 initState).wallpaper_index ≠ 0 :=
  ⟨by decide, by decide, by decide⟩

/-- C2 amended: the end-of-collection test holds exactly when
`wallpaper_index` has reached `collection_size`; in that case the next
`set_next` call resets `page_entry_index` to 0, `page_index` to 1,
`current_wallpaper_id` to the sentinel and `wallpaper_index` to 0 before
fetching page 1; and over any run of successful calls that never start in
the end-of-collection condition, `wallpaper_index` grows by the length of
the run (so it equals N, not 0, after N calls from a fresh wrap). -/
theorem c2_wrap_amended :
    (∀ s : CursorState, is_eoc_reached s = true ↔ s.collection_size ≤ s.wallpaper_index)
    ∧ (∀ (cfg : WHConfig) (r : Remote) (now : Int) (s : CursorState),
        s.collection_size ≤ s.wallpaper_index →
          refetch cfg r now s =
            fetch cfg r now
              { s with
                  page_entry_index := 0
                  page_index := 1
                  current_wallpaper_id := "0"
                  wallpaper_index := 0 }
          ∧ (refetch cfg r now s).2.1 = (WHClient.wallpapers cfg r 1).1)
    ∧ (∀ (cfg : WHConfig) (r : Remote) (now : Int) (n : Nat) (s : CursorState),
        okNonEocRun cfg r now n s = true →
          (iterState cfg r now n s).wallpaper_index = s.wallpaper_index + n) := by
  refine ⟨?_, ?_, ?_⟩
  · intro s
    simp only [is_eoc_reached, decide_eq_true_eq]
    omega
  · intro cfg r now s h
    have heoc : is_eoc_reached s = true := by
      simp only [is_eoc_reached, decide_eq_true_eq]
      omega
    have hre := refetch_eoc cfg r now s heoc
    refine ⟨hre, ?_⟩
    rw [hre, fetch_trace]
  · exact fun cfg r now n s h => iter_wi cfg r now n s h

/-- C2 witness: the amended wrap theorem applied to the single-item remote
at the initial state, and the counting part applied to a two-call run of
Scenario A after its first call. -/
theorem c2_wrap_amended_witness :
    refetch cfgA remoteB 0 initState =
      fetch cfgA remoteB 0
        { initState with
            page_entry_index := 0
            page_index := 1
            current_wallpaper_id := "0"
            wallpaper_index := 0 }
    ∧ (iterState cfgA remoteA 0 2 (iterState cfgA remoteA 0 1 initState)).wallpaper_index
        = (iterState cfgA remoteA 0 1 initState).wallpaper_index + 2 :=
  ⟨(c2_wrap_amended.2.1 cfgA remoteB 0 initState (by decide)).1,
    c2_wrap_amended.2.2 cfgA remoteA 0 2 (iterState cfgA remoteA 0 1 initState) (by decide)⟩

/-- A failing fetch reports its error and returns the state it was given. -/
theorem fetch_fail_state (cfg : WHConfig) (r : Remote) (now : Int) (t : CursorState)
    (e : WallError) (h : (fetch cfg r now t).2.2 = some e) :
    (fetch cfg r now t).1 = t := by
  unfold fetch at h ⊢
  cases hw : (WHClient.wallpapers cfg r t.page_index).2 with
  | error e' => simp
  | ok p => rw [hw] at h; simp at h

/-- C3 counterexample: at the state `sC` (end of page reached) with a
remote whose page requests fail, `set_next` propagates the transport error
but the cursor state is not what it was before the call: the end-of-page
resets performed before the fetch survive. -/
theorem c3_counterexample :
    (set_next cfgA remoteC 0 sC).2.2 = Except.error (WallError.transport "boom")
    ∧ (set_next cfgA remoteC 0 sC).1 ≠ sC
    ∧ (set_next cfgA remoteC 0 sC).1.page_index = sC.page_index + 1 :=
  ⟨by decide, by decide, by decide⟩

/-- C3 amended: a fetch failure during `set_next` propagates unchanged and
the fetch itself mutates nothing (`items`, `page_size`, `collection_size`
and `last_fetched_at` are as before the call), but the resets performed by
the end-of-collection or end-of-page branch before the fetch survive; only
when neither of those branches fired (the staleness case) is the state
exactly as before the call. -/
theorem c3_fetch_failure_amended (cfg : WHConfig) (r : Remote) (now : Int) (s : CursorState)
    (e : WallError) (h : (refetch cfg r now s).2.2 = some e) :
    set_next cfg r now s =
      ((refetch cfg r now s).1, (refetch cfg r now s).2.1, Except.error e)
    ∧ (refetch cfg r now s).1.wallpapers = s.wallpapers
    ∧ (refetch cfg r now s).1.page_size = s.page_size
    ∧ (refetch cfg r now s).1.collection_size = s.collection_size
    ∧ (refetch cfg r now s).1.last_fetched_at = s.last_fetched_at
    ∧ (is_eoc_reached s = true →
        (refetch cfg r now s).1 =
          { s with
              page_entry_index := 0
              page_index := 1
              current_wallpaper_id := "0"
              wallpaper_index := 0 })
    ∧ (is_eoc_reached s = false → is_eop_reached s = true →
        (refetch cfg r now s).1 =
          { s with
              page_index := s.page_index + 1
              page_entry_index := 0
              current_wallpaper_id := "0" })
    ∧ (is_eoc_reached s = false → is_eop_reached s = false →
        (refetch cfg r now s).1 = s) := by
  refine ⟨set_next_of_refetch_err cfg r now s e h, ?_⟩
  cases heoc : is_eoc_reached s with
  | true =>
    have hre := refetch_eoc cfg r now s heoc
    have h' : (fetch cfg r now
        { s with
            page_entry_index := 0
            page_index := 1
            current_wallpaper_id := "0"
            wallpaper_index := 0 }).2.2 = some e := by rw [← hre]; exact h
    have hstate : (refetch cfg r now s).1 =
        { s with
            page_entry_index := 0
            page_index := 1
            current_wallpaper_id := "0"
            wallpaper_index := 0 } := by
      rw [hre, fetch_fail_state cfg r now _ e h']
    refine ⟨?_, ?_, ?_, ?_, ?_, ?_, ?_⟩ <;> simp [hstate, heoc]
  | false =>
    cases heop : is_eop_reached s with
    | true =>
      have hre := refetch_eop cfg r now s heoc heop
      have h' : (fetch cfg r now
          { s with
              page_index := s.page_index + 1
              page_entry_index := 0
              current_wallpaper_id := "0" }).2.2 = some e := by rw [← hre]; exact h
      have hstate : (refetch cfg r now s).1 =
          { s with
              page_index := s.page_index + 1
              page_entry_index := 0
              current_wallpaper_id := "0" } := by
        rw [hre, fetch_fail_state cfg r now _ e h']
      refine ⟨?_, ?_, ?_, ?_, ?_, ?_, ?_⟩ <;> simp [hstate, heoc, heop]
    | false =>
      cases hexp : is_fetch_cache_expired cfg now s with
      | true =>
        have hre := refetch_stale cfg r now s heoc heop hexp
        have h' : (fetch cfg r now s).2.2 = some e := by rw [← hre]; exact h
        have hstate : (refetch cfg r now s).1 = s := by
          rw [hre, fetch_fail_state cfg r now s e h']
        refine ⟨?_, ?_, ?_, ?_, ?_, ?_, ?_⟩ <;> simp [hstate, heoc, heop]
      | false =>
        rw [refetch_skip cfg r now s heoc heop hexp] at h
        exact absurd h (by simp)

/-- C3 witness: the amended failure theorem applied at the end-of-page
state `sC` with the failing remote. -/
theorem c3_fetch_failure_amended_witness :
    set_next cfgA remoteC 0 sC =
      ((refetch cfgA remoteC 0 sC).1, (refetch cfgA remoteC 0 sC).2.1,
        Except.error (WallError.transport "boom")) :=
  (c3_fetch_failure_amended cfgA remoteC 0 sC (WallError.transport "boom") (by decide)).1

/-- C4: whenever the refetch step reports no error and the selection scan
finds no loaded item with identifier strictly greater than the current one,
`set_next` signals the exhausted-page failure; in particular, from the
initial state (collection size 0) the first call immediately wraps,
fetches page 1, and signals the failure when page 1 is empty. -/
theorem c4_exhausted_page :
    (∀ (cfg : WHConfig) (r : Remote) (now : Int) (s : CursorState),
        (refetch cfg r now s).2.2 = none →
        (refetch cfg r now s).1.wallpapers.find?
            (fun w => strLt (refetch cfg r now s).1.current_wallpaper_id w.id) = none →
        (set_next cfg r now s).2.2 = Except.error WallError.exhaustedPage)
    ∧ initState.collection_size = 0
    ∧ (set_next cfgA remoteE 0 initState).2.1
        = [Request.collectionsList, Request.pageRequest "alice" "c1" 1]
    ∧ (set_next cfgA remoteE 0 initState).2.2 = Except.error WallError.exhaustedPage := by
  refine ⟨?_, by decide, by decide, by decide⟩
  intro cfg r now s h hf
  rw [set_next_of_find_none cfg r now s h hf]

/-- C4 witness: the exhausted-page theorem applied to the empty remote at
the initial state. -/
theorem c4_exhausted_page_witness :
    (set_next cfgA remoteE 0 initState).2.2 = Except.error WallError.exhaustedPage :=
  c4_exhausted_page.1 cfgA remoteE 0 initState (by decide) (by decide)

/-- The lexicographic comparison is irreflexive. -/
theorem charListLt_irrefl : ∀ as, charListLt as as = false
  | [] => rfl
  | a :: as => by simp [charListLt, charListLt_irrefl as]

/-- The lexicographic comparison is transitive. -/
theorem charListLt_trans : ∀ as bs cs,
    charListLt as bs = true → charListLt bs cs = true → charListLt as cs = true := by
  intro as
  induction as with
  | nil =>
    intro bs cs h1 h2
    cases cs with
    | nil => simp [charListLt] at h2
    | cons c cs' => simp [charListLt]
  | cons a as ih =>
    intro bs cs h1 h2
    cases bs with
    | nil => simp [charListLt] at h1
    | cons b bs' =>
      cases cs with
      | nil => simp [charListLt] at h2
      | cons c cs' =>
        simp only [charListLt] at h1 h2 ⊢
        by_cases hab : a < b
        · by_cases hbc : b < c
          · simp [lt_trans hab hbc]
          · by_cases hcb : c < b
            · simp [hbc, hcb] at h2
            · have hbec : b = c := le_antisymm (le_of_not_lt hcb) (le_of_not_lt hbc)
              subst hbec
              simp [hab]
        · by_cases hba : b < a
          · simp [hab, hba] at h1
          · have haeb : a = b := le_antisymm (le_of_not_lt hba) (le_of_not_lt hab)
            subst haeb
            simp only [lt_irrefl, if_false] at h1 h2 ⊢
            by_cases hac : a < c
            · simp [hac]
            · by_cases hca : c < a
              · simp [hac, hca] at h2
              · rw [if_neg hac, if_neg hca] at h2 ⊢
                exact ih bs' cs' h1 h2

/-- The lexicographic comparison is asymmetric. -/
theorem charListLt_asymm : ∀ as bs, charListLt as bs = true → charListLt bs as = false := by
  intro as bs h
  cases hr : charListLt bs as with
  | false => rfl
  | true =>
    have hx := charListLt_trans as bs as h hr
    rw [charListLt_irrefl] at hx
    simp at hx

/-- The lexicographic comparison is trichotomous. -/
theorem charListLt_trichotomy : ∀ as bs,
    charListLt as bs = true ∨ charListLt bs as = true ∨ as = bs
  | [], [] => Or.inr (Or.inr rfl)
  | [], _ :: _ => Or.inl (by simp [charListLt])
  | _ :: _, [] => Or.inr (Or.inl (by simp [charListLt]))
  | a :: as, b :: bs => by
    rcases lt_trichotomy a b with h | h | h
    · exact Or.inl (by simp [charListLt, h])
    · subst h
      rcases charListLt_trichotomy as bs with h' | h' | h'
      · exact Or.inl (by simp [charListLt, h'])
      · exact Or.inr (Or.inl (by simp [charListLt, h']))
      · exact Or.inr (Or.inr (by rw [h']))
    · exact Or.inr (Or.inl (by simp [charListLt, h]))

/-- The identifier ordering used by the sort is total. -/
theorem itemLe_total : ∀ a b : Item, strLe a.id b.id = true ∨ strLe b.id a.id = true := by
  intro a b
  simp only [strLe, strLt, Bool.not_eq_true']
  cases h : charListLt b.id.data a.id.data with
  | false => exact Or.inl rfl
  | true => exact Or.inr (charListLt_asymm _ _ h)

/-- The identifier ordering used by the sort is transitive. -/
theorem itemLe_trans : ∀ a b c : Item,
    strLe a.id b.id = true → strLe b.id c.id = true → strLe a.id c.id = true := by
  intro a b c hab hbc
  simp only [strLe, strLt, Bool.not_eq_true'] at hab hbc ⊢
  cases hca : charListLt c.id.data a.id.data with
  | false => rfl
  | true =>
    rcases charListLt_trichotomy c.id.data b.id.data with h | h | h
    · rw [h] at hbc; simp at hbc
    · have := charListLt_trans _ _ _ h hca
      rw [this] at hab; simp at hab
    · rw [h] at hca; rw [hca] at hab; simp at hab

/-- Sorting by identifier yields a pairwise ascending list. -/
theorem sortById_sorted (l : List Item) :
    (sortById l).Pairwise (fun a b => strLe a.id b.id = true) := by
  haveI : IsTotal Item (fun a b => strLe a.id b.id = true) := ⟨itemLe_total⟩
  haveI : IsTrans Item (fun a b => strLe a.id b.id = true) := ⟨itemLe_trans⟩
  exact List.sorted_insertionSort _ l

/-- A successful fetch leaves the loaded items pairwise ascending by
identifier. -/
theorem fetch_sorted (cfg : WHConfig) (r : Remote) (now : Int) (t : CursorState)
    (h : (fetch cfg r now t).2.2 = none) :
    (fetch cfg r now t).1.wallpapers.Pairwise (fun a b => strLe a.id b.id = true) := by
  unfold fetch at h ⊢
  cases hw : (WHClient.wallpapers cfg r t.page_index).2 with
  | error e => rw [hw] at h; simp at h
  | ok p => simpa using sortById_sorted p.data

/-- C5: after every fetch performed by the cursor, `items` holds the fetched
page's items sorted ascending by identifier, identifiers compared as strings
lexicographically: a successful fetch stores exactly `sortById` of the page
data, such a list is pairwise ascending, and a successful refetch either
left the items untouched (no-fetch branch) or left them pairwise
ascending. -/
theorem c5_sorted_after_fetch :
    (∀ (cfg : WHConfig) (r : Remote) (now : Int) (t : CursorState) (p : Page),
        (WHClient.wallpapers cfg r t.page_index).2 = Except.ok p →
          (fetch cfg r now t).1.wallpapers = sortById p.data)
    ∧ (∀ (cfg : WHConfig) (r : Remote) (now : Int) (t : CursorState),
        (fetch cfg r now t).2.2 = none →
          (fetch cfg r now t).1.wallpapers.Pairwise (fun a b => strLe a.id b.id = true))
    ∧ (∀ (cfg : WHConfig) (r : Remote) (now : Int) (s : CursorState),
        (refetch cfg r now s).2.2 = none →
          (refetch cfg r now s).1.wallpapers = s.wallpapers
          ∨ (refetch cfg r now s).1.wallpapers.Pairwise
              (fun a b => strLe a.id b.id = true)) := by
  refine ⟨?_, ?_, ?_⟩
  · intro cfg r now t p h
    rw [fetch_ok_eq cfg r now t p h]
  · exact fetch_sorted
  · intro cfg r now s h
    cases heoc : is_eoc_reached s with
    | true =>
      have hre := refetch_eoc cfg r now s heoc
      rw [hre] at h ⊢
      exact Or.inr (fetch_sorted _ _ _ _ h)
    | false =>
      cases heop : is_eop_reached s with
      | true =>
        have hre := refetch_eop cfg r now s heoc heop
        rw [hre] at h ⊢
        exact Or.inr (fetch_sorted _ _ _ _ h)
      | false =>
        cases hexp : is_fetch_cache_expired cfg now s with
        | true =>
          have hre := refetch_stale cfg r now s heoc heop hexp
          rw [hre] at h ⊢
          exact Or.inr (fetch_sorted _ _ _ _ h)
        | false =>
          rw [refetch_skip cfg r now s heoc heop hexp]
          exact Or.inl rfl

/-- C5 witness: the sortedness theorem applied to a fetch of page 1 of
Scenario A. -/
theorem c5_sorted_after_fetch_witness :
    (fetch cfgA remoteA 0 { initState with page_index := 1 }).1.wallpapers.Pairwise
      (fun a b => strLe a.id b.id = true) :=
  c5_sorted_after_fetch.2.1 cfgA remoteA 0 { initState with page_index := 1 } (by decide)

/-- C6 counterexample: at the state `sS` a staleness refresh returns a page
whose reported sizes shrank to 1; the call succeeds and afterwards
`page_entry_index` exceeds `page_size` and `wallpaper_index` exceeds
`collection_size`. -/
theorem c6_counterexample :
    ((set_next cfgA remoteS 200 sS).2.2).toOption.isSome = true
    ∧ ¬ ((set_next cfgA remoteS 200 sS).1.page_entry_index
          ≤ (set_next cfgA remoteS 200 sS).1.page_size)
    ∧ ¬ ((set_next cfgA remoteS 200 sS).1.wallpaper_index
          ≤ (set_next cfgA remoteS 200 sS).1.collection_size) :=
  ⟨by decide, by decide, by decide⟩

/-- C6 amended: after a successful `set_next`, the bound
`page_entry_index <= page_size` holds provided the state left by the
refetch step had `page_entry_index + 1 <= page_size`, and likewise for
`wallpaper_index` against `collection_size`; when the call performed no
fetch both bounds hold unconditionally.  A fetch may install totals smaller
than the already-served counts, in which case the bounds fail. -/
theorem c6_counter_bounds_amended (cfg : WHConfig) (r : Remote) (now : Int) (s : CursorState)
    (w : Item) (hok : (set_next cfg r now s).2.2 = Except.ok w) :
    ((refetch cfg r now s).1.page_entry_index + 1 ≤ (refetch cfg r now s).1.page_size →
      (set_next cfg r now s).1.page_entry_index ≤ (set_next cfg r now s).1.page_size)
    ∧ ((refetch cfg r now s).1.wallpaper_index + 1 ≤ (refetch cfg r now s).1.collection_size →
      (set_next cfg r now s).1.wallpaper_index ≤ (set_next cfg r now s).1.collection_size)
    ∧ (is_eoc_reached s = false → is_eop_reached s = false →
        is_fetch_cache_expired cfg now s = false →
        (set_next cfg r now s).1.page_entry_index ≤ (set_next cfg r now s).1.page_size
        ∧ (set_next cfg r now s).1.wallpaper_index
            ≤ (set_next cfg r now s).1.collection_size) := by
  have hdec := set_next_ok_state cfg r now s w hok
  rw [hdec.2.2]
  refine ⟨?_, ?_, ?_⟩
  · intro hb; simpa using hb
  · intro hb; simpa using hb
  · intro h1 h2 h3
    have hskip : (refetch cfg r now s).1 = s := by
      rw [refetch_skip cfg r now s h1 h2 h3]
    rw [hskip]
    simp only [is_eop_reached, decide_eq_false_iff_not, not_le] at h2
    simp only [is_eoc_reached, decide_eq_false_iff_not, not_lt] at h1
    constructor
    · simpa using h2
    · simp only []
      omega

/-- C6 witness: the amended bounds theorem applied to the second call of
Scenario A, which performs no fetch. -/
theorem c6_counter_bounds_amended_witness :
    (set_next cfgA remoteA 0 (iterState cfgA remoteA 0 1 initState)).1.page_entry_index
        ≤ (set_next cfgA remoteA 0 (iterState cfgA remoteA 0 1 initState)).1.page_size
    ∧ (set_next cfgA remoteA 0 (iterState cfgA remoteA 0 1 initState)).1.wallpaper_index
        ≤ (set_next cfgA remoteA 0 (iterState cfgA remoteA 0 1 initState)).1.collection_size :=
  (c6_counter_bounds_amended cfgA remoteA 0 (iterState cfgA remoteA 0 1 initState)
      ⟨"2", "u2"⟩ (by decide)).2.2 (by decide) (by decide) (by decide)

/-- C7: when the staleness condition fires (end-of-collection and
end-of-page both false, cache expired), the refetch step fetches the
current page index; the fetch leaves `page_index`, `page_entry_index`,
`wallpaper_index` and `current_wallpaper_id` untouched, and on success
repopulates exactly `items` (sorted), `page_size`, `collection_size` and
`last_fetched_at`; on failure it changes nothing. -/
theorem c7_staleness_frame (cfg : WHConfig) (r : Remote) (now : Int) (s : CursorState)
    (h1 : is_eoc_reached s = false) (h2 : is_eop_reached s = false)
    (h3 : is_fetch_cache_expired cfg now s = true) :
    refetch cfg r now s = fetch cfg r now s
    ∧ (refetch cfg r now s).2.1 = (WHClient.wallpapers cfg r s.page_index).1
    ∧ (refetch cfg r now s).1.page_index = s.page_index
    ∧ (refetch cfg r now s).1.page_entry_index = s.page_entry_index
    ∧ (refetch cfg r now s).1.wallpaper_index = s.wallpaper_index
    ∧ (refetch cfg r now s).1.current_wallpaper_id = s.current_wallpaper_id
    ∧ (∀ p : Page, (WHClient.wallpapers cfg r s.page_index).2 = Except.ok p →
        refetch cfg r now s =
          ({ s with
              wallpapers := sortById p.data
              page_size := p.meta.per_page
              collection_size := p.meta.total
              last_fetched_at := now },
            (WHClient.wallpapers cfg r s.page_index).1, none))
    ∧ (∀ e : WallError, (WHClient.wallpapers cfg r s.page_index).2 = Except.error e →
        refetch cfg r now s = (s, (WHClient.wallpapers cfg r s.page_index).1, some e)) := by
  have hre := refetch_stale cfg r now s h1 h2 h3
  rw [hre]
  exact ⟨rfl, fetch_trace cfg r now s, (fetch_frame cfg r now s).1,
    (fetch_frame cfg r now s).2.1, (fetch_frame cfg r now s).2.2.1,
    (fetch_frame cfg r now s).2.2.2,
    fun p hp => fetch_ok_eq cfg r now s p hp,
    fun e he => fetch_fail_eq cfg r now s e he⟩

/-- C7 witness: the staleness frame theorem applied to Scenario A after its
first call, with the clock advanced past the staleness interval. -/
theorem c7_staleness_frame_witness :
    refetch cfgA remoteA 200 (iterState cfgA remoteA 0 1 initState)
      = fetch cfgA remoteA 200 (iterState cfgA remoteA 0 1 initState) :=
  (c7_staleness_frame cfgA remoteA 200 (iterState cfgA remoteA 0 1 initState)
    (by decide) (by decide) (by decide)).1

/-- C8: if a staleness-driven re-fetch returns a page identical to the one
already loaded (same items once sorted, same totals), the next `set_next`
yields the same item, and the same position counters and loaded items, as
the call would have without the refresh (a clock reading for which the
cache is not expired). -/
theorem c8_refresh_idempotent (cfg : WHConfig) (r : Remote) (now now' : Int)
    (s : CursorState) (p : Page)
    (h1 : is_eoc_reached s = false) (h2 : is_eop_reached s = false)
    (h3 : is_fetch_cache_expired cfg now s = true)
    (h3' : is_fetch_cache_expired cfg now' s = false)
    (hp : (WHClient.wallpapers cfg r s.page_index).2 = Except.ok p)
    (hitems : sortById p.data = s.wallpapers)
    (hps : p.meta.per_page = s.page_size)
    (hcs : p.meta.total = s.collection_size) :
    (set_next cfg r now s).2.2 = (set_next cfg r now' s).2.2
    ∧ (set_next cfg r now s).1.current_wallpaper_id
        = (set_next cfg r now' s).1.current_wallpaper_id
    ∧ (set_next cfg r now s).1.page_index = (set_next cfg r now' s).1.page_index
    ∧ (set_next cfg r now s).1.page_entry_index
        = (set_next cfg r now' s).1.page_entry_index
    ∧ (set_next cfg r now s).1.wallpaper_index
        = (set_next cfg r now' s).1.wallpaper_index
    ∧ (set_next cfg r now s).1.wallpapers = (set_next cfg r now' s).1.wallpapers
    ∧ (set_next cfg r now s).1.page_size = (set_next cfg r now' s).1.page_size
    ∧ (set_next cfg r now s).1.collection_size
        = (set_next cfg r now' s).1.collection_size := by
  have hA : refetch cfg r now s =
      ({ s with last_fetched_at := now },
        (WHClient.wallpapers cfg r s.page_index).1, none) := by
    rw [refetch_stale cfg r now s h1 h2 h3, fetch_ok_eq cfg r now s p hp,
      hitems, hps, hcs]
  have hB : refetch cfg r now' s = (s, [], none) := refetch_skip cfg r now' s h1 h2 h3'
  unfold set_next
  rw [hA, hB]
  cases hf : s.wallpapers.find? (fun w => strLt s.current_wallpaper_id w.id) with
  | none => simp [hf]
  | some w => simp [hf]

/-- C8 witness: the idempotence theorem applied to Scenario A after its
first call, comparing a stale clock reading (200) with a fresh one (0). -/
theorem c8_refresh_idempotent_witness :
    (set_next cfgA remoteA 200 (iterState cfgA remoteA 0 1 initState)).2.2
      = (set_next cfgA remoteA 0 (iterState cfgA remoteA 0 1 initState)).2.2 :=
  (c8_refresh_idempotent cfgA remoteA 200 0 (iterState cfgA remoteA 0 1 initState)
      { data := [⟨"1", "u1"⟩, ⟨"2", "u2"⟩], meta := { per_page := 2, total := 3 } }
      (by decide) (by decide) (by decide) (by decide) (by decide) (by decide)
      (by decide) (by decide)).1

/-- C9: when the configured collection label matches no remote collection,
a page fetch fails with the not-found error after issuing only the
collections listing request (the page request is never built), and a fetch
failure makes `set_next` propagate the error instead of serving an item. -/
theorem c9_unresolved_collection (cfg : WHConfig) (r : Remote) (cs : List Collection)
    (hok : r.collectionsResp = Except.ok cs)
    (hmiss : cs.find? (fun c => c.label == cfg.collection) = none) :
    (∀ page : Int, WHClient.wallpapers cfg r page
        = ([Request.collectionsList], Except.error WallError.notFound))
    ∧ (∀ page : Int, ∀ req ∈ (WHClient.wallpapers cfg r page).1,
        isPageRequest req = false)
    ∧ (∀ (now : Int) (s : CursorState) (e : WallError),
        (refetch cfg r now s).2.2 = some e →
          (set_next cfg r now s).2.2 = Except.error e) := by
  have hwp : ∀ page : Int, WHClient.wallpapers cfg r page
      = ([Request.collectionsList], Except.error WallError.notFound) := by
    intro page
    unfold WHClient.wallpapers
    simp [WHClient.collections, hok, hmiss]
  refine ⟨hwp, ?_, ?_⟩
  · intro page req hreq
    rw [hwp page] at hreq
    simp at hreq
    rw [hreq]
    rfl
  · intro now s e h
    rw [set_next_of_refetch_err cfg r now s e h]

/-- C9 witness: the unresolved-collection theorem applied to the
configuration whose label `"missing"` matches nothing in Scenario A's
remote. -/
theorem c9_unresolved_collection_witness :
    WHClient.wallpapers cfgMissing remoteA 1
      = ([Request.collectionsList], Except.error WallError.notFound) :=
  (c9_unresolved_collection cfgMissing remoteA [{ label := "walls", id := "c1" }]
    (by decide) (by decide)).1 1

/-- Every page fetch issues at most as many page requests as collections
listing requests. -/
theorem wallpapers_counts (cfg : WHConfig) (r : Remote) (page : Int) :
    ((WHClient.wallpapers cfg r page).1.countP isPageRequest)
      ≤ ((WHClient.wallpapers cfg r page).1.countP
          (fun q => q == Request.collectionsList)) := by
  unfold WHClient.wallpapers
  cases h : (WHClient.collections r).2 with
  | error e => simp [WHClient.collections, isPageRequest]
  | ok cs =>
    cases hf : cs.find? (fun c => c.label == cfg.collection) with
    | none => simp [hf, WHClient.collections, isPageRequest]
    | some c => simp [hf, WHClient.collections, isPageRequest, List.countP_cons]

/-- The requests of a `set_next` call are exactly those of its refetch
step. -/
theorem set_next_trace (cfg : WHConfig) (r : Remote) (now : Int) (s : CursorState) :
    (set_next cfg r now s).2.1 = (refetch cfg r now s).2.1 := by
  unfold set_next
  cases h : (refetch cfg r now s).2.2 with
  | some e => simp
  | none =>
    cases hf : (refetch cfg r now s).1.wallpapers.find?
        (fun w => strLt (refetch cfg r now s).1.current_wallpaper_id w.id) with
    | none => simp [hf]
    | some w => simp [hf]

/-- The refetch step either issues no requests or the requests of one
`wallpapers` call. -/
theorem refetch_trace_shape (cfg : WHConfig) (r : Remote) (now : Int) (s : CursorState) :
    (refetch cfg r now s).2.1 = []
    ∨ ∃ pg : Int, (refetch cfg r now s).2.1 = (WHClient.wallpapers cfg r pg).1 := by
  cases heoc : is_eoc_reached s with
  | true =>
    refine Or.inr ⟨1, ?_⟩
    rw [refetch_eoc cfg r now s heoc, fetch_trace]
  | false =>
    cases heop : is_eop_reached s with
    | true =>
      refine Or.inr ⟨s.page_index + 1, ?_⟩
      rw [refetch_eop cfg r now s heoc heop, fetch_trace]
    | false =>
      cases hexp : is_fetch_cache_expired cfg now s with
      | true =>
        refine Or.inr ⟨s.page_index, ?_⟩
        rw [refetch_stale cfg r now s heoc heop hexp, fetch_trace]
      | false =>
        rw [refetch_skip cfg r now s heoc heop hexp]
        exact Or.inl rfl

/-- C10: every page fetch first re-requests the collections listing and
re-resolves the configured label: the trace of a `wallpapers` call starts
with the listing request, the cursor's fetch issues exactly the requests of
one `wallpapers` call for the current page index (nothing is cached between
fetches), and in every `set_next` call the page requests never outnumber
the collections listing requests. -/
theorem c10_collections_each_fetch :
    (∀ (cfg : WHConfig) (r : Remote) (page : Int),
        (WHClient.wallpapers cfg r page).1.head? = some Request.collectionsList)
    ∧ (∀ (cfg : WHConfig) (r : Remote) (now : Int) (t : CursorState),
        (fetch cfg r now t).2.1 = (WHClient.wallpapers cfg r t.page_index).1)
    ∧ (∀ (cfg : WHConfig) (r : Remote) (page : Int),
        ((WHClient.wallpapers cfg r page).1.countP isPageRequest)
          ≤ ((WHClient.wallpapers cfg r page).1.countP
              (fun q => q == Request.collectionsList)))
    ∧ (∀ (cfg : WHConfig) (r : Remote) (now : Int) (s : CursorState),
        ((set_next cfg r now s).2.1.countP isPageRequest)
          ≤ ((set_next cfg r now s).2.1.countP
              (fun q => q == Request.collectionsList))) := by
  refine ⟨wallpapers_fst_head, fetch_trace, wallpapers_counts, ?_⟩
  intro cfg r now s
  rw [set_next_trace]
  rcases refetch_trace_shape cfg r now s with h | ⟨pg, h⟩
  · rw [h]
    simp
  · rw [h]
    exact wallpapers_counts cfg r pg
